import Mathlib

/-!
Verification of the database-access firewall repository.

This file gives a shallow embedding of the Python sources under `src/` and
proves the specification claims about them.  Pure Python functions become Lean
functions; the stateful components (logger, honeypot, threat analyzer, the
firewall orchestrator) become explicit state-passing functions.  The sqlite3
engine and the `faker` data generator are external dependencies and are
modelled as parameters (an abstract query-execution function and an abstract
field generator); the stdlib `ipaddress` module is modelled for the IPv4
fragment exercised by the configuration and the claims.  Wall-clock reads
(`datetime.now()`, `time.time()`) are passed in as explicit arguments.
Printing and e-mail/SMS alerting are I/O with no effect on the modelled state.
-/

namespace DBFirewall

/-! ## Python string primitives

`pySpace` matches the Python `str.strip` / regex `\s` whitespace set.
Quote characters are written via `Char.ofNat` (39 = single quote,
34 = double quote, 92 = backslash). -/

def squote : Char := Char.ofNat 39

def dquote : Char := Char.ofNat 34

def bslash : Char := Char.ofNat 92

def pySpace (c : Char) : Bool :=
  c = ' ' || c = '\t' || c = '\n' || c = '\r' || c = Char.ofNat 11 || c = Char.ofNat 12

/-- Python `str.strip()` on a character list. -/
def pyStripList (l : List Char) : List Char :=
  ((l.dropWhile pySpace).reverse.dropWhile pySpace).reverse

/-- Python `str.strip()`. -/
def pyStrip (s : String) : String :=
  String.mk (pyStripList s.data)

/-- Python `str.upper()` (ASCII, which covers every string the code handles). -/
def pyUpper (s : String) : String :=
  String.mk (s.data.map Char.toUpper)

/-- Python regex `\w` (ASCII fragment): letters, digits, underscore. -/
def isWordChar (c : Char) : Bool :=
  c.isAlphanum || c = '_'

/-- Wordness of the character preceding the current position
(none = start of string, which counts as non-word). -/
def prevWord : Option Char → Bool
  | none => false
  | some c => isWordChar c

/-! ## A matcher combinator model of `re.search`

Each compiled pattern of `src/security/injection_detector.py` (and the
`\bKEYWORD\b` searches of `src/database/query_validator.py`) is hand-translated
into a matcher: a function from the previous character (for `\b` word-boundary
assertions) and the remaining input to `Bool`, deciding whether the pattern
matches starting at the current position.  `re.search` is then the existence
of a matching start position (`searchAux`).  The patterns involved only chain
components over pairwise-disjoint character classes, so greedy matching is
equivalent to backtracking; the two genuinely branching constructs —
`(UTE)?` in `\bEXEC(UTE)?\b` and `.*` in the INSERT…SELECT pattern — are
translated as an explicit disjunction and an explicit scan. -/

abbrev Matcher := Option Char → List Char → Bool

/-- Case-insensitive literal: consume `w`, return the rest. -/
def litCI : List Char → List Char → Option (List Char)
  | [], l => some l
  | _ :: _, [] => none
  | c :: cs, x :: xs => if x.toLower = c.toLower then litCI cs xs else none

def guardB (b : Bool) (l : List Char) : Option (List Char) :=
  if b then some l else none

/-- Regex `\s+` (greedy; every pattern here follows it with a non-space). -/
def wsPlus : List Char → Option (List Char)
  | [] => none
  | c :: r => if pySpace c then some (r.dropWhile pySpace) else none

/-- Regex `\s*`. -/
def wsStar (l : List Char) : List Char :=
  l.dropWhile pySpace

/-- Regex `\d+` (greedy; every pattern here follows it with a non-digit). -/
def digitsPlus : List Char → Option (List Char)
  | [] => none
  | c :: r => if c.isDigit then some (r.dropWhile Char.isDigit) else none

/-- Regex `[\x27\x22]?` — optional single or double quote. -/
def quoteOpt (l : List Char) : List Char :=
  match l with
  | [] => []
  | c :: r => if c = squote || c = dquote then r else c :: r

/-- `\b` after a word character: next char absent or non-word. -/
def nonWordNext : List Char → Bool
  | [] => true
  | c :: _ => !isWordChar c

/-- `\b` before a word character when the current char is non-word. -/
def wordNext : List Char → Bool
  | [] => false
  | c :: _ => isWordChar c

/-- `re.search`: does the matcher fire at some position? -/
def searchAux (m : Matcher) : Option Char → List Char → Bool
  | prev, [] => m prev []
  | prev, c :: rest => m prev (c :: rest) || searchAux m (some c) rest

def reSearch (m : Matcher) (l : List Char) : Bool :=
  searchAux m none l

/-! ### The ten strong patterns -/

/-- `\bUNION\b\s+\bSELECT\b` (the boundary before SELECT is implied by the
preceding whitespace). -/
def mUnionSelect : Matcher := fun prev l =>
  !prevWord prev &&
  (do
    let r1 ← litCI "UNION".data l
    let r2 ← guardB (nonWordNext r1) r1
    let r3 ← wsPlus r2
    let r4 ← litCI "SELECT".data r3
    guardB (nonWordNext r4) r4).isSome

def firstIs (c : Char) : List Char → Bool
  | [] => false
  | x :: _ => x = c

def afterLitCI (w : List Char) (cond : List Char → Bool) (l : List Char) : Bool :=
  match litCI w l with
  | none => false
  | some r => cond r

/-- `(;|\b--\b|\b/\*\b|\b\*/\b)`: a `\b` adjacent to the non-word characters
`-`, `/`, `*` demands a word character on the other side. -/
def mDelims : Matcher := fun prev l =>
  firstIs ';' l
  || (prevWord prev && afterLitCI "--".data wordNext l)
  || (prevWord prev && afterLitCI "/*".data wordNext l)
  || (prevWord prev && afterLitCI "*/".data wordNext l)

/-- Shared body of `\bOR\b…` / `\bAND\b…`:
`\s+[\x27\x22]?\d+[\x27\x22]?\s*=\s*[\x27\x22]?\d+` after the keyword,
optionally (`tail`) followed by the final `[\x27\x22]?`. -/
def eqCondAfter (kw : List Char) (tail : Bool) : Matcher := fun prev l =>
  !prevWord prev &&
  (do
    let r1 ← litCI kw l
    let r2 ← guardB (nonWordNext r1) r1
    let r3 ← wsPlus r2
    let r4 := quoteOpt r3
    let r5 ← digitsPlus r4
    let r6 := wsStar (quoteOpt r5)
    let r7 ← litCI "=".data r6
    let r8 := quoteOpt (wsStar r7)
    let r9 ← digitsPlus r8
    let r10 := if tail then quoteOpt r9 else r9
    some r10).isSome

/-- `\bOR\b\s+[\x27\x22]?\d+[\x27\x22]?\s*=\s*[\x27\x22]?\d+[\x27\x22]?` -/
def mOrEq : Matcher := eqCondAfter "OR".data true

/-- `\bAND\b\s+[\x27\x22]?\d+[\x27\x22]?\s*=\s*[\x27\x22]?\d+[\x27\x22]?` -/
def mAndEq : Matcher := eqCondAfter "AND".data true

/-- Two word-delimited keywords separated by `\s+`. -/
def mTwoWords (w1 w2 : List Char) : Matcher := fun prev l =>
  !prevWord prev &&
  (do
    let r1 ← litCI w1 l
    let r2 ← guardB (nonWordNext r1) r1
    let r3 ← wsPlus r2
    let r4 ← litCI w2 r3
    guardB (nonWordNext r4) r4).isSome

/-- `\bDROP\b\s+\bTABLE\b` -/
def mDropTable : Matcher := mTwoWords "DROP".data "TABLE".data

/-- `\bDELETE\b\s+\bFROM\b` -/
def mDeleteFrom : Matcher := mTwoWords "DELETE".data "FROM".data

/-- The `.*\bSELECT\b` part: scan forward (never across a newline, since `.`
does not match one) for a position with a word boundary before `SELECT`. -/
def scanIntoSelect : Char → List Char → Bool
  | _, [] => false
  | prev, c :: rest =>
    (!isWordChar prev && afterLitCI "SELECT".data nonWordNext (c :: rest))
    || (c ≠ '\n' && scanIntoSelect c rest)

/-- `\bINSERT\b\s+\bINTO\b.*\bSELECT\b` -/
def mInsertIntoSelect : Matcher := fun prev l =>
  !prevWord prev &&
  (match (do
      let r1 ← litCI "INSERT".data l
      let r2 ← guardB (nonWordNext r1) r1
      let r3 ← wsPlus r2
      let r4 ← litCI "INTO".data r3
      guardB (nonWordNext r4) r4) with
   | none => false
   | some r5 => scanIntoSelect 'O' r5)

/-- `sleep\s*\(` -/
def mSleep : Matcher := fun _ l =>
  (do
    let r1 ← litCI "sleep".data l
    litCI "(".data (wsStar r1)).isSome

/-- `benchmark\s*\(` -/
def mBenchmark : Matcher := fun _ l =>
  (do
    let r1 ← litCI "benchmark".data l
    litCI "(".data (wsStar r1)).isSome

/-- `\bEXEC(UTE)?\b`: try the `UTE` branch, else the empty branch. -/
def mExec : Matcher := fun prev l =>
  !prevWord prev &&
  (match litCI "EXEC".data l with
   | none => false
   | some r => afterLitCI "UTE".data nonWordNext r || nonWordNext r)

/-! ### The five weak patterns -/

/-- A single word-delimited keyword. -/
def mWord (w : List Char) : Matcher := fun prev l =>
  !prevWord prev && afterLitCI w nonWordNext l

def mInfoSchema : Matcher := mWord "INFORMATION_SCHEMA".data

def mPgSleep : Matcher := mWord "PG_SLEEP".data

def pyHexDigit (c : Char) : Bool :=
  c.isDigit || ('a' ≤ c.toLower && c.toLower ≤ 'f')

/-- `0x[0-9a-f]\x7b6,\x7d` (IGNORECASE): `0x` then at least six hex digits. -/
def mHexBlob : Matcher := fun _ l =>
  match l with
  | c0 :: c1 :: rest =>
    c0 = '0' && c1.toLower = 'x' && decide (6 ≤ (rest.takeWhile pyHexDigit).length)
  | _ => false

/-- `char\(` -/
def mCharParen : Matcher := fun _ l => (litCI "char(".data l).isSome

/-- `cast\(` -/
def mCastParen : Matcher := fun _ l => (litCI "cast(".data l).isSome

/-- The closing `re.search` of `detect_sql_injection` / `score_sql_risk`:
`\bOR\b\s+[\x27\x22]?\d+[\x27\x22]?\s*=\s*[\x27\x22]?\d+` (no trailing quote). -/
def mOrAlwaysTrue : Matcher := eqCondAfter "OR".data false

/-- `_STRONG_PATTERNS` with their source pattern texts (used in reasons). -/
def RE_STRONG : List (String × Matcher) :=
  [("\\bUNION\\b\\s+\\bSELECT\\b", mUnionSelect),
   ("(;|\\b--\\b|\\b/\\*\\b|\\b\\*/\\b)", mDelims),
   ("\\bOR\\b\\s+[\x27\\\x22]?\\d+[\x27\\\x22]?\\s*=\\s*[\x27\\\x22]?\\d+[\x27\\\x22]?", mOrEq),
   ("\\bAND\\b\\s+[\x27\\\x22]?\\d+[\x27\\\x22]?\\s*=\\s*[\x27\\\x22]?\\d+[\x27\\\x22]?", mAndEq),
   ("\\bDROP\\b\\s+\\bTABLE\\b", mDropTable),
   ("\\bDELETE\\b\\s+\\bFROM\\b", mDeleteFrom),
   ("\\bINSERT\\b\\s+\\bINTO\\b.*\\bSELECT\\b", mInsertIntoSelect),
   ("sleep\\s*\\(", mSleep),
   ("benchmark\\s*\\(", mBenchmark),
   ("\\bEXEC(UTE)?\\b", mExec)]

/-- `_WEAK_PATTERNS` with their source pattern texts. -/
def RE_WEAK : List (String × Matcher) :=
  [("\\bINFORMATION_SCHEMA\\b", mInfoSchema),
   ("\\bPG_SLEEP\\b", mPgSleep),
   ("0x[0-9a-f]\x7b6,\x7d", mHexBlob),
   ("char\\(", mCharParen),
   ("cast\\(", mCastParen)]

/-- `detect_sql_injection(query)` from `src/security/injection_detector.py`.
The source's `if ";" in q: cnt = q.count(";"); if cnt >= 1: …` is rendered as
the conjunction of the two tests (there is no fall-through difference). -/
def detect_sql_injection (query : String) : Bool × String :=
  if query = "" then (false, "")
  else
    let q := pyStripList query.data
    if q.contains ';' && decide (1 ≤ q.count ';') then
      (true, "Multiple statements or semicolon found")
    else
      match RE_STRONG.find? (fun pr => reSearch pr.2 q) with
      | some pr => (true, "Strong pattern matched: " ++ pr.1)
      | none =>
        match RE_WEAK.find? (fun pr => reSearch pr.2 q) with
        | some pr => (true, "Weak pattern matched: " ++ pr.1)
        | none =>
          if reSearch mOrAlwaysTrue q then (true, "Always-true OR condition detected")
          else (false, "")

/-- Python `round(x, 3)`.  Python rounds half-to-even; every value
`score_sql_risk` rounds is an integer multiple of 1/10, where the two
conventions agree, so Mathlib's `round` is used. -/
def pyRound3 (x : ℚ) : ℚ :=
  ((round (x * 1000) : ℤ) : ℚ) / 1000

/-- `score_sql_risk(query)` from `src/security/injection_detector.py`,
with floats modelled as rationals (every arithmetic step is exact in
double precision at 3-decimal rounding for these operand sets). -/
def score_sql_risk (query : String) : ℚ :=
  if query = "" then 0.0
  else
    let q := pyStripList query.data
    let score : ℚ := 0.0
    let score := if q.contains ';' then score + 0.5 else score
    let score := RE_STRONG.foldl (fun s pr => if reSearch pr.2 q then s + 0.6 else s) score
    let score := RE_WEAK.foldl (fun s pr => if reSearch pr.2 q then s + 0.2 else s) score
    let score := if reSearch mOrAlwaysTrue q then score + 0.6 else score
    let score := if score > 1.0 then 1.0 else score
    pyRound3 score

/-- The suspicion predicate of `WrappedCursor.execute` in
`src/security/db_proxy.py`: `score >= 0.6` diverts to the honeypot. -/
def proxySuspicious (query : String) : Bool :=
  decide (score_sql_risk query ≥ 0.6)

/-! ### A closed form for the score

`score_sql_risk` only ever adds the weights 0.5, 0.6 and 0.2, so the raw sum
is a number of tenths; `scoreTenths` computes that number in `ℕ` and
`score_eq_tenths` proves `score_sql_risk = scoreTenths / 10`.  All later
reasoning about the score goes through this closed form. -/

def strongCount (q : List Char) : ℕ :=
  RE_STRONG.countP (fun pr => reSearch pr.2 q)

def weakCount (q : List Char) : ℕ :=
  RE_WEAK.countP (fun pr => reSearch pr.2 q)

/-- The unclamped score in tenths. -/
def rawTenths (q : List Char) : ℕ :=
  (if q.contains ';' then 5 else 0) + 6 * strongCount q + 2 * weakCount q
    + (if reSearch mOrAlwaysTrue q then 6 else 0)

/-- The final score in tenths (clamped at 10 = 1.0). -/
def scoreTenths (query : String) : ℕ :=
  if query = "" then 0 else min (rawTenths (pyStripList query.data)) 10

theorem foldl_if_add_count (L : List (String × Matcher)) (q : List Char) (c a : ℚ) :
    L.foldl (fun s pr => if reSearch pr.2 q then s + c else s) a
      = a + c * (L.countP (fun pr => reSearch pr.2 q)) := by
  induction L generalizing a with
  | nil => simp
  | cons hd tl ih =>
    simp only [List.foldl_cons, List.countP_cons]
    by_cases h : reSearch hd.2 q
    · rw [if_pos h, ih]
      simp only [h, if_true]
      push_cast
      ring
    · rw [if_neg h, ih]
      simp only [h, if_false]
      push_cast
      ring

theorem pyRound3_tenths (m : ℕ) : pyRound3 ((m : ℚ) / 10) = (m : ℚ) / 10 := by
  unfold pyRound3
  have h : ((m : ℚ) / 10) * 1000 = (((m * 100 : ℕ) : ℤ) : ℚ) := by
    push_cast
    ring
  rw [h, round_intCast]
  push_cast
  ring

theorem clamp_round_tenths (n : ℕ) :
    pyRound3 (if ((n : ℚ) / 10 > 1.0) then (1.0 : ℚ) else (n : ℚ) / 10)
      = ((min n 10 : ℕ) : ℚ) / 10 := by
  by_cases h : 10 < n
  · have h1 : ((n : ℚ) / 10 > 1.0) := by
      rw [gt_iff_lt, show (1.0 : ℚ) = 1 from by norm_num,
        lt_div_iff₀ (by norm_num : (0 : ℚ) < 10)]
      norm_num
      exact_mod_cast h
    rw [if_pos h1, Nat.min_eq_right (le_of_lt h)]
    have h2 := pyRound3_tenths 10
    rw [show ((10 : ℕ) : ℚ) / 10 = 1.0 by norm_num] at h2
    rw [h2]
    norm_num
  · have h1 : ¬((n : ℚ) / 10 > 1.0) := by
      rw [gt_iff_lt, not_lt, show (1.0 : ℚ) = 1 from by norm_num,
        div_le_one (by norm_num : (0 : ℚ) < 10)]
      exact_mod_cast Nat.le_of_not_lt h
    rw [if_neg h1, Nat.min_eq_left (Nat.le_of_not_lt h)]
    exact pyRound3_tenths n

theorem score_eq_tenths (query : String) :
    score_sql_risk query = (scoreTenths query : ℚ) / 10 := by
  unfold score_sql_risk scoreTenths
  by_cases hq : query = ""
  · simp only [hq, if_true, if_pos]
    norm_num
  · simp only [hq, if_false]
    rw [foldl_if_add_count, foldl_if_add_count]
    have hraw :
        (if reSearch mOrAlwaysTrue (pyStripList query.data) then
            ((if (pyStripList query.data).contains ';' then (0.0 : ℚ) + 0.5 else 0.0)
                + 0.6 * (RE_STRONG.countP
                    (fun pr => reSearch pr.2 (pyStripList query.data)) : ℚ)
                + 0.2 * (RE_WEAK.countP
                    (fun pr => reSearch pr.2 (pyStripList query.data)) : ℚ)) + 0.6
          else
            ((if (pyStripList query.data).contains ';' then (0.0 : ℚ) + 0.5 else 0.0)
                + 0.6 * (RE_STRONG.countP
                    (fun pr => reSearch pr.2 (pyStripList query.data)) : ℚ)
                + 0.2 * (RE_WEAK.countP
                    (fun pr => reSearch pr.2 (pyStripList query.data)) : ℚ)))
          = ((rawTenths (pyStripList query.data) : ℚ)) / 10 := by
      unfold rawTenths strongCount weakCount
      by_cases hs : (pyStripList query.data).contains ';' <;>
        by_cases ho : reSearch mOrAlwaysTrue (pyStripList query.data) <;>
          simp only [hs, ho, if_true, if_false] <;> push_cast <;> ring
    rw [hraw, clamp_round_tenths]

theorem scoreTenths_le_ten (query : String) : scoreTenths query ≤ 10 := by
  unfold scoreTenths
  split
  · omega
  · exact Nat.min_le_right _ _

/-- "The addition of `f` does not remove any match already present in `q`":
every injection indicator that fires on the stripped `q` also fires on the
stripped `q ++ f`. -/
def preservesIndicators (q f : String) : Prop :=
  ((pyStripList q.data).contains ';' = true →
      (pyStripList (q ++ f).data).contains ';' = true)
  ∧ (∀ pr ∈ RE_STRONG, reSearch pr.2 (pyStripList q.data) = true →
      reSearch pr.2 (pyStripList (q ++ f).data) = true)
  ∧ (∀ pr ∈ RE_WEAK, reSearch pr.2 (pyStripList q.data) = true →
      reSearch pr.2 (pyStripList (q ++ f).data) = true)
  ∧ (reSearch mOrAlwaysTrue (pyStripList q.data) = true →
      reSearch mOrAlwaysTrue (pyStripList (q ++ f).data) = true)

instance (q f : String) : Decidable (preservesIndicators q f) := by
  unfold preservesIndicators
  infer_instance

theorem rawTenths_mono_of_preserves (q f : String) (h : preservesIndicators q f) :
    rawTenths (pyStripList q.data) ≤ rawTenths (pyStripList (q ++ f).data) := by
  obtain ⟨h1, h2, h3, h4⟩ := h
  unfold rawTenths strongCount weakCount
  have c1 : (if (pyStripList q.data).contains ';' then (5 : ℕ) else 0)
      ≤ (if (pyStripList (q ++ f).data).contains ';' then (5 : ℕ) else 0) := by
    by_cases hb : (pyStripList q.data).contains ';'
    · rw [if_pos hb, if_pos (h1 hb)]
    · rw [if_neg hb]
      omega
  have c2 : RE_STRONG.countP (fun pr => reSearch pr.2 (pyStripList q.data))
      ≤ RE_STRONG.countP (fun pr => reSearch pr.2 (pyStripList (q ++ f).data)) :=
    List.countP_mono_left h2
  have c3 : RE_WEAK.countP (fun pr => reSearch pr.2 (pyStripList q.data))
      ≤ RE_WEAK.countP (fun pr => reSearch pr.2 (pyStripList (q ++ f).data)) :=
    List.countP_mono_left h3
  have c4 : (if reSearch mOrAlwaysTrue (pyStripList q.data) then (6 : ℕ) else 0)
      ≤ (if reSearch mOrAlwaysTrue (pyStripList (q ++ f).data) then (6 : ℕ) else 0) := by
    by_cases hb : reSearch mOrAlwaysTrue (pyStripList q.data)
    · rw [if_pos hb, if_pos (h4 hb)]
    · rw [if_neg hb]
      omega
  omega

theorem scoreTenths_mono_of_preserves (q f : String) (h : preservesIndicators q f) :
    scoreTenths q ≤ scoreTenths (q ++ f) := by
  unfold scoreTenths
  by_cases hq : q = ""
  · rw [if_pos hq]
    omega
  · have hqf : q ++ f ≠ "" := by
      intro hc
      apply hq
      have : (q ++ f).data = [] := by rw [hc]
      rw [String.data_append, List.append_eq_nil] at this
      cases q
      simp_all
    rw [if_neg hq, if_neg hqf]
    exact min_le_min (rawTenths_mono_of_preserves q f h) le_rfl

/-- C7: for every input, `score_sql_risk` lies in [0, 1] (the additive sum of
0.5 for a semicolon, 0.6 per strong pattern, 0.2 per weak pattern and 0.6 for
an always-true OR condition is clamped at 1.0 and 3-decimal rounding is exact),
and whenever appending a fragment removes no injection indicator already
firing on the query, the score does not decrease. -/
theorem C7_score_in_unit_and_monotone :
    (∀ q : String, 0 ≤ score_sql_risk q ∧ score_sql_risk q ≤ 1)
    ∧ (∀ q f : String, preservesIndicators q f →
        score_sql_risk q ≤ score_sql_risk (q ++ f)) := by
  constructor
  · intro q
    rw [score_eq_tenths]
    constructor
    · positivity
    · have h := scoreTenths_le_ten q
      rw [div_le_one (by norm_num : (0 : ℚ) < 10)]
      exact_mod_cast h
  · intro q f h
    rw [score_eq_tenths, score_eq_tenths]
    gcongr
    exact_mod_cast scoreTenths_mono_of_preserves q f h

/-- Witness for C7 at a concrete query and fragment. -/
theorem C7_score_in_unit_and_monotone_witness :
    score_sql_risk "SELECT a FROM t"
      ≤ score_sql_risk ("SELECT a FROM t" ++ "; DROP TABLE t") :=
  C7_score_in_unit_and_monotone.2 "SELECT a FROM t" "; DROP TABLE t" (by decide)

/-- C8 counterexample: `"INFORMATION_SCHEMA char( cast("` contains no
semicolon, matches no strong pattern and no always-true OR condition — it
matches only weak patterns — yet three weak matches à 0.2 reach score 0.6,
which the scoring-based interceptor treats as suspicious and diverts. -/
theorem C8_only_weak_reaches_threshold :
    (pyStripList "INFORMATION_SCHEMA char( cast(".data).contains ';' = false
    ∧ strongCount (pyStripList "INFORMATION_SCHEMA char( cast(".data) = 0
    ∧ reSearch mOrAlwaysTrue (pyStripList "INFORMATION_SCHEMA char( cast(".data) = false
    ∧ weakCount (pyStripList "INFORMATION_SCHEMA char( cast(".data) = 3
    ∧ score_sql_risk "INFORMATION_SCHEMA char( cast(" = 0.6
    ∧ proxySuspicious "INFORMATION_SCHEMA char( cast(" = true := by
  refine ⟨by decide, by decide, by decide, by decide, ?_, ?_⟩
  · rw [score_eq_tenths, show scoreTenths "INFORMATION_SCHEMA char( cast(" = 6 from by decide]
    norm_num
  · unfold proxySuspicious
    simp only [ge_iff_le, decide_eq_true_eq]
    rw [score_eq_tenths, show scoreTenths "INFORMATION_SCHEMA char( cast(" = 6 from by decide]
    norm_num

/-- C8 (amended): a query matching only weak injection patterns, and at most
two of them, scores below 0.6 and is never diverted by the scoring-based
interceptor.  (Three or more weak matches do reach the 0.6 threshold, see the
counterexample.) -/
theorem C8_two_weak_stay_below_threshold (q : String)
    (hs : (pyStripList q.data).contains ';' = false)
    (hstrong : strongCount (pyStripList q.data) = 0)
    (hor : reSearch mOrAlwaysTrue (pyStripList q.data) = false)
    (hweak : weakCount (pyStripList q.data) ≤ 2) :
    score_sql_risk q < 0.6 ∧ proxySuspicious q = false := by
  have hsc : scoreTenths q ≤ 4 := by
    unfold scoreTenths
    split
    · omega
    · have : rawTenths (pyStripList q.data) ≤ 4 := by
        unfold rawTenths
        rw [hs, hstrong, hor]
        simp only [Bool.false_eq_true, if_false]
        omega
      omega
  constructor
  · rw [score_eq_tenths]
    have h4 : (scoreTenths q : ℚ) ≤ 4 := by exact_mod_cast hsc
    have : (scoreTenths q : ℚ) / 10 ≤ 4 / 10 := by gcongr
    calc (scoreTenths q : ℚ) / 10 ≤ 4 / 10 := this
    _ < 0.6 := by norm_num
  · unfold proxySuspicious
    simp only [ge_iff_le, decide_eq_false_iff_not, not_le]
    rw [score_eq_tenths]
    have h4 : (scoreTenths q : ℚ) ≤ 4 := by exact_mod_cast hsc
    have : (scoreTenths q : ℚ) / 10 ≤ 4 / 10 := by gcongr
    calc (scoreTenths q : ℚ) / 10 ≤ 4 / 10 := this
    _ < 0.6 := by norm_num

/-- Witness for the amended C8 at the concrete query `"SELECT cast(x AS INT)"`,
which matches exactly one weak pattern and nothing else. -/
theorem C8_two_weak_stay_below_threshold_witness :
    score_sql_risk "SELECT cast(x AS INT)" < 0.6
    ∧ proxySuspicious "SELECT cast(x AS INT)" = false :=
  C8_two_weak_stay_below_threshold "SELECT cast(x AS INT)"
    (by decide) (by decide) (by decide) (by decide)

/-! ## QueryValidator (`src/database/query_validator.py`)

`allow_ddl` is the `self.allow_ddl` instance attribute (default `False`,
changed only by `set_allow_ddl`), passed explicitly. -/

def DANGEROUS_KEYWORDS : List String :=
  ["DROP", "TRUNCATE", "ALTER", "CREATE", "EXEC", "EXECUTE", "GRANT", "REVOKE", "SHUTDOWN"]

def READ_ONLY_OPS : List String := ["SELECT"]

def WRITE_OPS : List String := ["INSERT", "UPDATE", "DELETE"]

def DDL_OPS : List String := ["CREATE", "ALTER", "DROP", "TRUNCATE"]

/-- `re.search(r'\b' + keyword + r'\b', s)` for an alphabetic keyword.
(The case-insensitive `litCI` is harmless here: the validator applies this to
an upper-cased query with upper-case keywords.) -/
def keywordSearch (kw : String) (s : String) : Bool :=
  reSearch (mWord kw.data) s.data

/-- The loop body of `_check_dangerous_keywords`: a found keyword only causes
rejection when it is a DDL keyword and DDL is disallowed; otherwise the loop
continues with the remaining keywords. -/
def checkDangerousAux (allow_ddl : Bool) (query_upper : String) :
    List String → Bool × String
  | [] => (false, "")
  | kw :: rest =>
    if keywordSearch kw query_upper then
      if DDL_OPS.contains kw && !allow_ddl then
        (true, "Dangerous keyword detected: " ++ kw)
      else checkDangerousAux allow_ddl query_upper rest
    else checkDangerousAux allow_ddl query_upper rest

/-- `QueryValidator._check_dangerous_keywords`. -/
def check_dangerous_keywords (allow_ddl : Bool) (query : String) : Bool × String :=
  checkDangerousAux allow_ddl (pyUpper query) DANGEROUS_KEYWORDS

/-- Python `str.split()` (split on whitespace runs, no empty parts). -/
def splitWSAux : List Char → List Char → List (List Char)
  | acc, [] => if acc.isEmpty then [] else [acc.reverse]
  | acc, c :: r =>
    if pySpace c then
      if acc.isEmpty then splitWSAux [] r else acc.reverse :: splitWSAux [] r
    else splitWSAux (c :: acc) r

def pySplitWS (s : String) : List String :=
  (splitWSAux [] s.data).map String.mk

/-- `QueryValidator._check_allowed_operations`. -/
def check_allowed_operations (query : String) (allowed_operations : List String) :
    Bool × String :=
  let query_upper := pyStrip (pyUpper query)
  let first_keyword := (pySplitWS query_upper).headD ""
  if !((allowed_operations.map pyUpper).contains first_keyword) then
    (false, "Operation " ++ String.mk [squote] ++ first_keyword ++ String.mk [squote]
      ++ " is not allowed. Allowed: " ++ String.intercalate ", " allowed_operations)
  else (true, "")

/-- The character loop of `_has_multiple_statements`, carrying the previous
character (for the backslash test), `in_string` and `string_char`. -/
def hasMultipleStatementsAux : Option Char → Bool → Option Char → List Char → Bool
  | _, _, _, [] => false
  | prev, inStr, sc, c :: rest =>
    if (c = dquote || c = squote) && prev != some bslash then
      if !inStr then hasMultipleStatementsAux (some c) true (some c) rest
      else if some c = sc then hasMultipleStatementsAux (some c) false sc rest
      else hasMultipleStatementsAux (some c) inStr sc rest
    else if c = ';' && !inStr then
      (if !(pyStripList rest).isEmpty && !("--".data.isPrefixOf (pyStripList rest)) then
        true
      else hasMultipleStatementsAux (some c) inStr sc rest)
    else hasMultipleStatementsAux (some c) inStr sc rest

/-- `QueryValidator._has_multiple_statements`. -/
def has_multiple_statements (query : String) : Bool :=
  hasMultipleStatementsAux none false none query.data

def hasSubstring (w : List Char) : List Char → Bool
  | [] => w.isEmpty
  | c :: rest => w.isPrefixOf (c :: rest) || hasSubstring w rest

/-- `re.search(r'/\*.*?\*/', query, re.DOTALL)`: a `/*` with a later `*/`. -/
def hasBlockComment : List Char → Bool
  | [] => false
  | c :: rest =>
    ("/*".data.isPrefixOf (c :: rest) && hasSubstring "*/".data rest.tail)
    || hasBlockComment rest

/-- After a `--`, scan (not across a newline, `.` does not match one) for
`OR`, `AND` or `UNION` (IGNORECASE, no word boundaries in the source). -/
def scanOrAndUnion : List Char → Bool
  | [] => false
  | c :: rest =>
    (litCI "OR".data (c :: rest)).isSome || (litCI "AND".data (c :: rest)).isSome
    || (litCI "UNION".data (c :: rest)).isSome
    || (c ≠ '\n' && scanOrAndUnion rest)

/-- `re.search(r'--.*?(OR|AND|UNION)', query, re.IGNORECASE)`. -/
def hasDashComment : List Char → Bool
  | [] => false
  | c :: rest =>
    ("--".data.isPrefixOf (c :: rest) && scanOrAndUnion rest.tail)
    || hasDashComment rest

/-- `QueryValidator._has_suspicious_comments`. -/
def has_suspicious_comments (query : String) : Bool :=
  hasBlockComment query.data || hasDashComment query.data

/-- `QueryValidator.validate_query`.  Python's `if not query or not
query.strip():` is equivalent to the stripped query being empty, and
`if allowed_operations:` is falsy for both `None` and the empty list. -/
def validate_query (allow_ddl : Bool) (query : String)
    (allowed_operations : Option (List String)) : Bool × String :=
  if pyStripList query.data = [] then (false, "Empty query")
  else
    let query := pyStrip query
    let dk := check_dangerous_keywords allow_ddl query
    if dk.1 then (false, dk.2)
    else
      let opsCheck :=
        match allowed_operations with
        | some ops => if !ops.isEmpty then check_allowed_operations query ops else (true, "")
        | none => (true, "")
      if !opsCheck.1 then (false, opsCheck.2)
      else if has_multiple_statements query then
        (false, "Multiple SQL statements not allowed")
      else if has_suspicious_comments query then
        (false, "Suspicious SQL comments detected")
      else (true, "Query is valid")

theorem checkDangerousAux_fst_true (a : Bool) (qU : String) (L : List String)
    (h : (checkDangerousAux a qU L).1 = true) :
    ∃ kw ∈ L, DDL_OPS.contains kw = true ∧ a = false ∧ keywordSearch kw qU = true := by
  induction L with
  | nil => simp [checkDangerousAux] at h
  | cons kw rest ih =>
    unfold checkDangerousAux at h
    by_cases h1 : keywordSearch kw qU
    · rw [if_pos h1] at h
      by_cases h2 : DDL_OPS.contains kw && !a
      · refine ⟨kw, by simp, ?_, ?_, h1⟩
        · exact (Bool.and_eq_true _ _ |>.mp h2).1
        · have := (Bool.and_eq_true _ _ |>.mp h2).2
          simp at this
          exact this
      · rw [if_neg h2] at h
        obtain ⟨kw2, hmem, hrest⟩ := ih h
        exact ⟨kw2, by simp [hmem], hrest⟩
    · rw [if_neg h1] at h
      obtain ⟨kw2, hmem, hrest⟩ := ih h
      exact ⟨kw2, by simp [hmem], hrest⟩

/-- C4 (the code as it is): `_check_dangerous_keywords` only ever rejects a
DDL keyword with DDL disallowed — EXEC, EXECUTE, GRANT, REVOKE and SHUTDOWN
are *never* rejected, contrary to the claim — witnessed concretely on
`"EXEC sp_who"`, `"GRANT ALL ON db TO u"` and `"SHUTDOWN"` (accepted as
valid), while the DDL half of the claim does hold (`"DROP TABLE users"`
rejected when `allow_ddl` is false). -/
theorem C4_exec_grant_never_rejected :
    (∀ (a : Bool) (query : String), (check_dangerous_keywords a query).1 = true →
      ∃ kw ∈ DANGEROUS_KEYWORDS, DDL_OPS.contains kw = true ∧ a = false
        ∧ keywordSearch kw (pyUpper query) = true)
    ∧ validate_query false "EXEC sp_who" none = (true, "Query is valid")
    ∧ validate_query true "EXEC sp_who" none = (true, "Query is valid")
    ∧ validate_query false "GRANT ALL ON db TO u" none = (true, "Query is valid")
    ∧ validate_query false "SHUTDOWN" none = (true, "Query is valid")
    ∧ validate_query false "DROP TABLE users" none
        = (false, "Dangerous keyword detected: DROP") := by
  refine ⟨?_, by decide, by decide, by decide, by decide, by decide⟩
  intro a query h
  exact checkDangerousAux_fst_true a (pyUpper query) DANGEROUS_KEYWORDS h

/-- Witness for the universally quantified part of the C4 theorem. -/
theorem C4_exec_grant_never_rejected_witness :
    ∃ kw ∈ DANGEROUS_KEYWORDS, DDL_OPS.contains kw = true ∧ false = false
      ∧ keywordSearch kw (pyUpper "DROP TABLE users") = true :=
  C4_exec_grant_never_rejected.1 false "DROP TABLE users" (by decide)

/-! ## The stdlib `ipaddress` module, IPv4 fragment

`AccessControl._check_ip_whitelist` uses `ipaddress.ip_address`,
`ipaddress.ip_network` (strict, the default) and `in`.  The IPv4 dotted-quad
fragment is modelled (four decimal octets, 1–3 digits, no leading zeros,
each ≤ 255); IPv6 literals parse to `none`, which no claim exercises. -/

def splitOnCharAux (c : Char) : List Char → List Char → List (List Char)
  | [], acc => [acc.reverse]
  | x :: xs, acc =>
    if x = c then acc.reverse :: splitOnCharAux c xs []
    else splitOnCharAux c xs (x :: acc)

/-- Python `s.split(c)` (for a one-character separator). -/
def splitOnChar (c : Char) (l : List Char) : List (List Char) :=
  splitOnCharAux c l []

/-- One decimal octet: 1–3 digits, no leading zero, value ≤ 255. -/
def parseOctet (t : List Char) : Option ℕ :=
  if t.isEmpty then none
  else if !(t.all Char.isDigit) then none
  else if 3 < t.length then none
  else if 1 < t.length && t.headD ' ' = '0' then none
  else
    let v := t.foldl (fun n c => n * 10 + (c.toNat - 48)) 0
    if v ≤ 255 then some v else none

structure IPv4 where
  o1 : ℕ
  o2 : ℕ
  o3 : ℕ
  o4 : ℕ
deriving DecidableEq

/-- `ipaddress.ip_address` on a dotted-quad string (`none` = `ValueError`). -/
def parseIPv4 (s : String) : Option IPv4 :=
  match splitOnChar '.' s.data with
  | [t1, t2, t3, t4] => do
    let a ← parseOctet t1
    let b ← parseOctet t2
    let c ← parseOctet t3
    let d ← parseOctet t4
    some ⟨a, b, c, d⟩
  | _ => none

def ipToNat (ip : IPv4) : ℕ :=
  ((ip.o1 * 256 + ip.o2) * 256 + ip.o3) * 256 + ip.o4

/-- `str(ip_obj)`: the canonical dotted-quad form. -/
def ipStr (ip : IPv4) : String :=
  Nat.repr ip.o1 ++ "." ++ Nat.repr ip.o2 ++ "." ++ Nat.repr ip.o3 ++ "." ++ Nat.repr ip.o4

/-- The prefix length of a CIDR entry: digits only (leading zeros are
accepted here, unlike in octets), value ≤ 32. -/
def parsePrefixLen (t : List Char) : Option ℕ :=
  if t.isEmpty then none
  else if !(t.all Char.isDigit) then none
  else
    let v := t.foldl (fun n c => n * 10 + (c.toNat - 48)) 0
    if v ≤ 32 then some v else none

/-- `ipaddress.ip_network(allowed)` with the default `strict=True`:
the host bits must be zero, otherwise `ValueError` (= `none`). -/
def parseNetwork (s : String) : Option (IPv4 × ℕ) :=
  match splitOnChar '/' s.data with
  | [addr, plen] => do
    let ip ← parseIPv4 (String.mk addr)
    let p ← parsePrefixLen plen
    if ipToNat ip % 2 ^ (32 - p) = 0 then some (ip, p) else none
  | _ => none

/-- `ip_obj in ip_network(...)`: equality of the network prefixes. -/
def ipInNetwork (ip : IPv4) (net : IPv4 × ℕ) : Bool :=
  ipToNat ip / 2 ^ (32 - net.2) = ipToNat net.1 / 2 ^ (32 - net.2)

/-! ## AccessControl (`src/core/access_control.py`) -/

/-- The whitelist loop.  A `ValueError` from `ip_network` propagates to the
enclosing `try` and makes the whole check return `False` (even if a later
entry would have matched), hence the `none => false`. -/
def checkIpWhitelistAux (ip : IPv4) : List String → Bool
  | [] => false
  | allowed :: rest =>
    if allowed.data.contains '/' then
      match parseNetwork allowed with
      | none => false
      | some net => if ipInNetwork ip net then true else checkIpWhitelistAux ip rest
    else
      if ipStr ip = allowed then true else checkIpWhitelistAux ip rest

/-- `AccessControl._check_ip_whitelist`. -/
def check_ip_whitelist (ip : String) (whitelist : List String) : Bool :=
  match parseIPv4 ip with
  | none => false
  | some ipObj => checkIpWhitelistAux ipObj whitelist

structure AppConfig where
  time_windows : List (ℕ × ℕ)
  allowed_operations : List String
  ip_whitelist : List String
deriving DecidableEq

abbrev FirewallConfig := List (String × AppConfig)

/-- `AccessControl._check_time_window`: membership `start ≤ hour < end`. -/
def check_time_window (hour : ℕ) (windows : List (ℕ × ℕ)) : Bool :=
  windows.any (fun w => decide (w.1 ≤ hour) && decide (hour < w.2))

/-- `AccessControl.is_authorized`.  `current_time` enters only through
`current_time.hour`, passed here as `hour` (a `simulate_time` of `None` reads
the wall clock, which the caller supplies the same way). -/
def is_authorized (config : FirewallConfig) (app_id ip_address operation : String)
    (hour : ℕ) : Bool × String :=
  match config.lookup app_id with
  | none => (false, "Unknown application")
  | some app_config =>
    if !check_time_window hour app_config.time_windows then
      (false, "Outside authorized time window")
    else if !(app_config.allowed_operations.contains (pyUpper operation)) then
      (false, "Unauthorized operation")
    else if !(check_ip_whitelist ip_address app_config.ip_whitelist) then
      (false, "IP not whitelisted")
    else
      (true, "Authorized")

/-- `AUTHORIZED_APPS` from `src/config/database_config.py`. -/
def AUTHORIZED_APPS : FirewallConfig :=
  [("webapp_frontend",
    ⟨[(9, 17)], ["SELECT", "INSERT", "UPDATE"], ["192.168.1.0/24"]⟩),
   ("backup_service",
    ⟨[(2, 4)], ["SELECT"], ["10.0.0.5"]⟩),
   ("admin_panel",
    ⟨[(0, 23)], ["SELECT", "INSERT", "UPDATE", "DELETE"], ["192.168.1.100"]⟩),
   ("shop_api",
    ⟨[(0, 23)], ["SELECT", "INSERT", "UPDATE", "DELETE"], ["127.0.0.1", "::1"]⟩),
   ("demo_app",
    ⟨[(0, 23)], ["SELECT", "INSERT", "UPDATE", "DELETE", "CREATE"], ["127.0.0.1", "::1"]⟩),
   ("fastapi_app",
    ⟨[(0, 23)], ["SELECT", "INSERT", "UPDATE"], ["*"]⟩),
   ("flask_app",
    ⟨[(0, 23)], ["SELECT", "INSERT", "UPDATE"], ["*"]⟩),
   ("django_app",
    ⟨[(0, 23)], ["SELECT", "INSERT", "UPDATE", "DELETE"], ["*"]⟩)]

/-- C2: `is_authorized` decides in order — unknown application, then time
window (membership `start ≤ hour < end`, end exclusive), then operation
(upper-cased), then IP whitelist — with the first failure fixing the reason;
and for `webapp_frontend`, whose only window is (9, 17), the result is
authorized at hour 10 and denied at hour 2, all other inputs held constant. -/
theorem C2_is_authorized_cascade :
    (∀ (cfg : FirewallConfig) (app ip op : String) (h : ℕ),
      cfg.lookup app = none → is_authorized cfg app ip op h = (false, "Unknown application"))
    ∧ (∀ (cfg : FirewallConfig) (app ip op : String) (h : ℕ) (ac : AppConfig),
      cfg.lookup app = some ac → check_time_window h ac.time_windows = false →
        is_authorized cfg app ip op h = (false, "Outside authorized time window"))
    ∧ (∀ (cfg : FirewallConfig) (app ip op : String) (h : ℕ) (ac : AppConfig),
      cfg.lookup app = some ac → check_time_window h ac.time_windows = true →
        ac.allowed_operations.contains (pyUpper op) = false →
        is_authorized cfg app ip op h = (false, "Unauthorized operation"))
    ∧ (∀ (cfg : FirewallConfig) (app ip op : String) (h : ℕ) (ac : AppConfig),
      cfg.lookup app = some ac → check_time_window h ac.time_windows = true →
        ac.allowed_operations.contains (pyUpper op) = true →
        check_ip_whitelist ip ac.ip_whitelist = false →
        is_authorized cfg app ip op h = (false, "IP not whitelisted"))
    ∧ (∀ (cfg : FirewallConfig) (app ip op : String) (h : ℕ) (ac : AppConfig),
      cfg.lookup app = some ac → check_time_window h ac.time_windows = true →
        ac.allowed_operations.contains (pyUpper op) = true →
        check_ip_whitelist ip ac.ip_whitelist = true →
        is_authorized cfg app ip op h = (true, "Authorized"))
    ∧ (∀ (h : ℕ) (ws : List (ℕ × ℕ)),
      check_time_window h ws = ws.any (fun w => decide (w.1 ≤ h) && decide (h < w.2)))
    ∧ is_authorized AUTHORIZED_APPS "webapp_frontend" "192.168.1.50" "SELECT" 10
        = (true, "Authorized")
    ∧ is_authorized AUTHORIZED_APPS "webapp_frontend" "192.168.1.50" "SELECT" 2
        = (false, "Outside authorized time window") := by
  refine ⟨?_, ?_, ?_, ?_, ?_, fun _ _ => rfl, by decide, by decide⟩
  · intro cfg app ip op h hl
    unfold is_authorized
    rw [hl]
  · intro cfg app ip op h ac hl htw
    unfold is_authorized
    rw [hl]
    simp only [htw]
    simp
  · intro cfg app ip op h ac hl htw hop
    unfold is_authorized
    rw [hl]
    simp only [htw, hop]
    simp
  · intro cfg app ip op h ac hl htw hop hip
    unfold is_authorized
    rw [hl]
    simp only [htw, hop, hip]
    simp
  · intro cfg app ip op h ac hl htw hop hip
    unfold is_authorized
    rw [hl]
    simp only [htw, hop, hip]
    simp

/-- Witness for C2: the unknown-application, denial and full-success branches
at concrete inputs. -/
theorem C2_is_authorized_cascade_witness :
    is_authorized AUTHORIZED_APPS "nosuch_app" "1.2.3.4" "SELECT" 10
        = (false, "Unknown application")
    ∧ is_authorized AUTHORIZED_APPS "backup_service" "10.0.0.5" "INSERT" 3
        = (false, "Unauthorized operation")
    ∧ is_authorized AUTHORIZED_APPS "admin_panel" "192.168.1.100" "delete" 12
        = (true, "Authorized") :=
  ⟨C2_is_authorized_cascade.1 AUTHORIZED_APPS "nosuch_app" "1.2.3.4" "SELECT" 10 (by decide),
   C2_is_authorized_cascade.2.2.1 AUTHORIZED_APPS "backup_service" "10.0.0.5" "INSERT" 3
     ⟨[(2, 4)], ["SELECT"], ["10.0.0.5"]⟩ (by decide) (by decide) (by decide),
   C2_is_authorized_cascade.2.2.2.2.1 AUTHORIZED_APPS "admin_panel" "192.168.1.100" "delete" 12
     ⟨[(0, 23)], ["SELECT", "INSERT", "UPDATE", "DELETE"], ["192.168.1.100"]⟩
     (by decide) (by decide) (by decide) (by decide)⟩

theorem ipStr_ne_star (ip : IPv4) : ipStr ip ≠ "*" := by
  intro h
  have hdot : '.' ∈ (ipStr ip).data := by
    simp [ipStr, String.data_append]
  rw [h] at hdot
  simp at hdot

/-- C3 (the code as it is): a whitelist entry `*` contains no slash, so it is
compared literally with `str(ip_obj)` and therefore matches *no* syntactically
valid IP address — the configured wildcard apps deny every IP, contrary to
the claim and the configuration comment ("Allow from any IP for demo"). -/
theorem C3_star_matches_nothing :
    (∀ (s : String) (ip : IPv4), parseIPv4 s = some ip →
      check_ip_whitelist s ["*"] = false)
    ∧ is_authorized AUTHORIZED_APPS "fastapi_app" "8.8.8.8" "SELECT" 10
        = (false, "IP not whitelisted")
    ∧ is_authorized AUTHORIZED_APPS "django_app" "127.0.0.1" "SELECT" 10
        = (false, "IP not whitelisted") := by
  refine ⟨?_, by decide, by decide⟩
  intro s ip hp
  unfold check_ip_whitelist
  rw [hp]
  unfold checkIpWhitelistAux
  simp only [show ("*".data.contains '/') = false from by decide, Bool.false_eq_true,
    if_false]
  rw [if_neg (ipStr_ne_star ip)]
  rfl

/-- Witness for C3 at the concrete address 8.8.8.8. -/
theorem C3_star_matches_nothing_witness :
    check_ip_whitelist "8.8.8.8" ["*"] = false :=
  C3_star_matches_nothing.1 "8.8.8.8" ⟨8, 8, 8, 8⟩ (by decide)

/-! ## SecurityLogger (`src/core/logger.py`)

Entries keep the fields the claims mention; the wall-clock `timestamp` /
`unix_timestamp` fields are pure I/O reads and are omitted, and
`execution_time_ms` is the elapsed-time value the caller passes in. -/

structure QueryEntry where
  app_id : String
  ip_address : String
  operation : String
  query : String
  is_authorized : Bool
  reason : String
  status : String
  execution_time_ms : ℚ
deriving DecidableEq

structure IntrusionEntry where
  app_id : String
  ip_address : String
  operation : String
  query : String
  reason : String
  action : String
deriving DecidableEq

structure SecurityLoggerState where
  logs : List IntrusionEntry
  query_history : List QueryEntry
deriving DecidableEq

/-- `SecurityLogger.log_query` (returns the new state and the entry). -/
def log_query (s : SecurityLoggerState) (app_id ip_address operation query : String)
    (is_auth : Bool) (reason : String) (execution_time_ms : ℚ) :
    SecurityLoggerState × QueryEntry :=
  let e : QueryEntry :=
    ⟨app_id, ip_address, operation, query, is_auth, reason,
      if is_auth then "ALLOWED" else "BLOCKED", execution_time_ms⟩
  ({ s with query_history := s.query_history ++ [e] }, e)

/-- `SecurityLogger.log_intrusion`. -/
def log_intrusion (s : SecurityLoggerState)
    (app_id ip_address operation query reason : String) :
    SecurityLoggerState × IntrusionEntry :=
  let e : IntrusionEntry :=
    ⟨app_id, ip_address, operation, query, reason, "REDIRECTED_TO_HONEYPOT"⟩
  ({ s with logs := s.logs ++ [e] }, e)

/-- The Python slice `l[i:]` for an `int` start index `i`. -/
def pySliceFrom (i : ℤ) (l : List α) : List α :=
  if 0 ≤ i then l.drop i.toNat else l.drop (l.length - (-i).toNat)

/-- Python truthiness of an `int`-or-`None` argument: `None` and `0` are falsy. -/
def intTruthy : Option ℤ → Bool
  | none => false
  | some n => n != 0

/-- Python truthiness of a `str`-or-`None` argument: `None` and `""` are falsy. -/
def strTruthy : Option String → Bool
  | none => false
  | some t => t != ""

/-- `SecurityLogger.get_logs`: `if limit: return self.logs[-limit:]`. -/
def get_logs (s : SecurityLoggerState) (limit : Option ℤ) : List IntrusionEntry :=
  if intTruthy limit then pySliceFrom (-(limit.getD 0)) s.logs else s.logs

/-- `SecurityLogger.get_query_history`. -/
def get_query_history (s : SecurityLoggerState) (limit : Option ℤ)
    (filter_status : Option String) : List QueryEntry :=
  let history := s.query_history
  let history :=
    if strTruthy filter_status then
      history.filter (fun q => q.status = filter_status.getD "")
    else history
  if intTruthy limit then pySliceFrom (-(limit.getD 0)) history else history

structure QueryStats where
  total_queries : ℕ
  allowed : ℕ
  blocked : ℕ
  block_rate : ℚ
deriving DecidableEq

/-- `SecurityLogger.get_query_stats`. -/
def get_query_stats (s : SecurityLoggerState) : QueryStats :=
  let total := s.query_history.length
  let allowed := s.query_history.countP (fun q => q.is_authorized)
  let blocked := total - allowed
  ⟨total, allowed, blocked,
    if 0 < total then (blocked : ℚ) / total * 100 else 0⟩

/-! ## Honeypot (`src/core/honeypot.py`) and FakeDataGenerator

The sqlite3 engine is an abstract parameter: `SQLEngine σ ρ` maps a raw query
and a committed database state to an error (a raised exception) or a new
state and the fetched rows.  The `faker` randomness is the abstract `gen`,
giving the username/email/password-hash/balance of the i-th generated row. -/

abbrev SQLEngine (σ ρ : Type) := String → σ → Except String (σ × List ρ)

structure UserRow where
  id : ℕ
  username : String
  email : String
  password : String
  balance : ℚ
deriving DecidableEq

/-- `FakeDataGenerator.generate_users`: ids run 1..count, the other fields
come from faker (`gen`). -/
def generate_users (gen : ℕ → String × String × String × ℚ) (count : ℕ) :
    List UserRow :=
  (List.range' 1 count).map
    (fun i => ⟨i, (gen i).1, (gen i).2.1, (gen i).2.2.1, (gen i).2.2.2⟩)

/-- `Honeypot.populate_fake_data`: `DELETE FROM users` then insert the
generated rows, committed. -/
def populate_fake_data (gen : ℕ → String × String × String × ℚ)
    (num_records : ℕ) (_st : List UserRow) : List UserRow :=
  generate_users gen num_records

/-- `Honeypot.execute_query`: repopulate (default 5 rows), run the raw query;
a SELECT-prefixed query returns the fetched rows (no commit, so the close in
`finally` discards any change); any other query commits and returns `[]`;
a raised error is swallowed, returning `[]` (the populate commit stands). -/
def honeypot_execute_query (engine : SQLEngine (List UserRow) ρ)
    (gen : ℕ → String × String × String × ℚ) (query : String)
    (st : List UserRow) : List UserRow × List ρ :=
  let st1 := populate_fake_data gen 5 st
  match engine query st1 with
  | .error _ => (st1, [])
  | .ok (st2, rows) =>
    if "SELECT".data.isPrefixOf (pyUpper (pyStrip query)).data then (st1, rows)
    else (st2, [])

/-- C10: a limit of 0 is falsy in `if limit:`, so `get_logs` and
`get_query_history` treat `limit=0` exactly like `limit=None` (the whole,
optionally filtered, list); only a strictly positive limit truncates to the
last `limit` entries. -/
theorem C10_zero_limit_means_all :
    (∀ s : SecurityLoggerState, get_logs s (some 0) = get_logs s none)
    ∧ (∀ (s : SecurityLoggerState) (fs : Option String),
        get_query_history s (some 0) fs = get_query_history s none fs)
    ∧ (∀ (s : SecurityLoggerState) (n : ℤ), 0 < n →
        get_logs s (some n) = s.logs.drop (s.logs.length - n.toNat))
    ∧ (∀ (s : SecurityLoggerState) (fs : Option String) (n : ℤ), 0 < n →
        get_query_history s (some n) fs
          = (get_query_history s none fs).drop
              ((get_query_history s none fs).length - n.toNat)) := by
  have htruthy : ∀ n : ℤ, 0 < n → intTruthy (some n) = true := by
    intro n hn
    simp only [intTruthy, bne_iff_ne, ne_eq]
    omega
  have hslice : ∀ (α : Type) (n : ℤ) (l : List α), 0 < n →
      pySliceFrom (-n) l = l.drop (l.length - n.toNat) := by
    intro α n l hn
    unfold pySliceFrom
    rw [if_neg (by omega), neg_neg]
  refine ⟨?_, ?_, ?_, ?_⟩
  · intro s
    simp [get_logs, intTruthy]
  · intro s fs
    simp [get_query_history, intTruthy]
  · intro s n hn
    unfold get_logs
    rw [htruthy n hn]
    simp only [if_true, Option.getD_some]
    exact hslice _ n s.logs hn
  · intro s fs n hn
    unfold get_query_history
    rw [htruthy n hn]
    simp only [if_true, Option.getD_some, intTruthy, Bool.false_eq_true, if_false]
    exact hslice _ n _ hn

/-- Witness for C10 at a three-entry log and limit 2. -/
theorem C10_zero_limit_means_all_witness :
    get_logs ⟨[⟨"a", "i", "SELECT", "q", "r", "H"⟩, ⟨"b", "j", "SELECT", "p", "r", "H"⟩,
        ⟨"c", "k", "SELECT", "o", "r", "H"⟩], []⟩ (some 2)
      = ([⟨"a", "i", "SELECT", "q", "r", "H"⟩, ⟨"b", "j", "SELECT", "p", "r", "H"⟩,
          ⟨"c", "k", "SELECT", "o", "r", "H"⟩] : List IntrusionEntry).drop
          (([⟨"a", "i", "SELECT", "q", "r", "H"⟩, ⟨"b", "j", "SELECT", "p", "r", "H"⟩,
             ⟨"c", "k", "SELECT", "o", "r", "H"⟩] : List IntrusionEntry).length
            - (2 : ℤ).toNat) :=
  C10_zero_limit_means_all.2.2.1
    ⟨[⟨"a", "i", "SELECT", "q", "r", "H"⟩, ⟨"b", "j", "SELECT", "p", "r", "H"⟩,
      ⟨"c", "k", "SELECT", "o", "r", "H"⟩], []⟩ 2 (by norm_num)

/-- C6: `Honeypot.execute_query` first repopulates — the engine always runs on
the five freshly generated rows with ids 1..5, independent of the incoming
table state and of the query — then returns the fetched rows for a
SELECT-prefixed query, `[]` after commit for any other query, and `[]`
whenever execution raises, never propagating the error. -/
theorem C6_honeypot_repopulates_and_swallows :
    (∀ (ρ : Type) (engine : SQLEngine (List UserRow) ρ)
        (gen : ℕ → String × String × String × ℚ) (q : String) (st st' : List UserRow),
      honeypot_execute_query engine gen q st = honeypot_execute_query engine gen q st')
    ∧ (∀ (gen : ℕ → String × String × String × ℚ) (n : ℕ),
        (generate_users gen n).map (fun r => r.id) = List.range' 1 n)
    ∧ (∀ (ρ : Type) (engine : SQLEngine (List UserRow) ρ)
        (gen : ℕ → String × String × String × ℚ) (q : String) (st : List UserRow)
        (err : String),
      engine q (generate_users gen 5) = .error err →
        honeypot_execute_query engine gen q st = (generate_users gen 5, []))
    ∧ (∀ (ρ : Type) (engine : SQLEngine (List UserRow) ρ)
        (gen : ℕ → String × String × String × ℚ) (q : String)
        (st st2 : List UserRow) (rows : List ρ),
      engine q (generate_users gen 5) = .ok (st2, rows) →
        "SELECT".data.isPrefixOf (pyUpper (pyStrip q)).data = true →
        honeypot_execute_query engine gen q st = (generate_users gen 5, rows))
    ∧ (∀ (ρ : Type) (engine : SQLEngine (List UserRow) ρ)
        (gen : ℕ → String × String × String × ℚ) (q : String)
        (st st2 : List UserRow) (rows : List ρ),
      engine q (generate_users gen 5) = .ok (st2, rows) →
        "SELECT".data.isPrefixOf (pyUpper (pyStrip q)).data = false →
        honeypot_execute_query engine gen q st = (st2, [])) := by
  refine ⟨fun _ _ _ _ _ _ => rfl, ?_, ?_, ?_, ?_⟩
  · intro gen n
    unfold generate_users
    rw [List.map_map]
    exact List.map_id'' (fun _ => rfl) _
  · intro ρ engine gen q st err h
    unfold honeypot_execute_query
    simp only [populate_fake_data]
    rw [h]
  · intro ρ engine gen q st st2 rows h hsel
    unfold honeypot_execute_query
    simp only [populate_fake_data]
    rw [h]
    simp [hsel]
  · intro ρ engine gen q st st2 rows h hsel
    unfold honeypot_execute_query
    simp only [populate_fake_data]
    rw [h]
    simp [hsel]

/-- Witness for C6: a failing engine is swallowed; a successful SELECT
returns the engine rows, both on the freshly generated table. -/
theorem C6_honeypot_repopulates_and_swallows_witness :
    honeypot_execute_query
        (fun _ _ => (.error "no such table" : Except String (List UserRow × List ℕ)))
        (fun _ => ("u", "e", "p", (0 : ℚ))) "DELETE FROM users" []
      = (generate_users (fun _ => ("u", "e", "p", (0 : ℚ))) 5, [])
    ∧ honeypot_execute_query (fun _ st => (.ok (st, [7]) : Except String (List UserRow × List ℕ)))
        (fun _ => ("u", "e", "p", (0 : ℚ))) "SELECT * FROM users" []
      = (generate_users (fun _ => ("u", "e", "p", (0 : ℚ))) 5, [7]) :=
  ⟨C6_honeypot_repopulates_and_swallows.2.2.1 ℕ
      (fun _ _ => .error "no such table") (fun _ => ("u", "e", "p", (0 : ℚ)))
      "DELETE FROM users" [] "no such table" rfl,
   C6_honeypot_repopulates_and_swallows.2.2.2.1 ℕ
      (fun _ st => .ok (st, [7])) (fun _ => ("u", "e", "p", (0 : ℚ)))
      "SELECT * FROM users" [] (generate_users (fun _ => ("u", "e", "p", (0 : ℚ))) 5) [7]
      rfl (by decide)⟩

/-! ## DatabaseFirewall (`src/core/firewall.py`)

The orchestrator state bundles the real database (abstract `σ`), the
honeypot table, and the logger.  `elapsed_ms` is the measured
`(time.time() - start_time) * 1000`, a wall-clock value passed in;
`AlertManager.send_alert` only prints, so it has no modelled effect.
An exception from the real-store `cursor.execute` propagates to the caller
(`.error`); the honeypot path never raises. -/

structure FirewallState (σ ρ : Type) where
  real_db : σ
  honeypot_db : List UserRow
  logger : SecurityLoggerState

/-- `DatabaseFirewall.execute_query`.  On the authorized-and-clean path the
query runs verbatim on the real store; a write operation (by the
`operation.upper()` name, not the query text) commits and returns `[]`, a
read returns the fetched rows (no commit, so the close discards any change).
Otherwise the denial reason is the injection reason if injection was
detected, else the access-control reason; an intrusion entry and an alert
are emitted, the unmodified query runs on the honeypot, and the blocked
attempt is logged. -/
def firewall_execute_query (realEngine : SQLEngine σ ρ)
    (honeypotEngine : SQLEngine (List UserRow) ρ)
    (gen : ℕ → String × String × String × ℚ) (elapsed_ms : ℚ)
    (s : FirewallState σ ρ) (app_id ip_address operation query : String)
    (hour : ℕ) :
    Except String (FirewallState σ ρ × (Bool × List ρ × String)) :=
  let inj := detect_sql_injection query
  let auth := is_authorized AUTHORIZED_APPS app_id ip_address operation hour
  if auth.1 && !inj.1 then
    match realEngine query s.real_db with
    | .error e => .error e
    | .ok (db2, rows) =>
      if ["INSERT", "UPDATE", "DELETE"].contains (pyUpper operation) then
        let logger2 := (log_query s.logger app_id ip_address operation query
          true "Access granted" elapsed_ms).1
        .ok ({ s with real_db := db2, logger := logger2 },
          (true, ([] : List ρ), "Access granted"))
      else
        let logger2 := (log_query s.logger app_id ip_address operation query
          true "Access granted" elapsed_ms).1
        .ok ({ s with logger := logger2 }, (true, rows, "Access granted"))
  else
    let final_reason := if inj.1 then inj.2 else auth.2
    let logger2 := (log_intrusion s.logger app_id ip_address operation query
      final_reason).1
    let hp := honeypot_execute_query honeypotEngine gen query s.honeypot_db
    let logger3 := (log_query logger2 app_id ip_address operation query
      false final_reason elapsed_ms).1
    .ok ({ s with honeypot_db := hp.1, logger := logger3 },
      (false, hp.2, final_reason))

/-- C1: when access control authorizes the call and the boolean detector does
not flag the query, the query runs verbatim on the real store — an empty
result for INSERT/UPDATE/DELETE operations (after commit), all fetched rows
otherwise — and the call returns `(true, results, reason)`.  Otherwise the
call returns `(false, honeypot_results, reason)`, the reason being the
injection reason when injection was detected and the access-control reason
otherwise, with `honeypot_results` from running the unmodified query on the
honeypot. -/
theorem C1_execute_query_routing :
    (∀ (σ ρ : Type) (realE : SQLEngine σ ρ) (hpE : SQLEngine (List UserRow) ρ)
        (gen : ℕ → String × String × String × ℚ) (el : ℚ) (s : FirewallState σ ρ)
        (app ip op q : String) (hr : ℕ) (db2 : σ) (rows : List ρ),
      (is_authorized AUTHORIZED_APPS app ip op hr).1 = true →
      (detect_sql_injection q).1 = false →
      realE q s.real_db = .ok (db2, rows) →
      ∃ s2, firewall_execute_query realE hpE gen el s app ip op q hr
        = .ok (s2, (true,
            if ["INSERT", "UPDATE", "DELETE"].contains (pyUpper op) then [] else rows,
            "Access granted")))
    ∧ (∀ (σ ρ : Type) (realE : SQLEngine σ ρ) (hpE : SQLEngine (List UserRow) ρ)
        (gen : ℕ → String × String × String × ℚ) (el : ℚ) (s : FirewallState σ ρ)
        (app ip op q : String) (hr : ℕ),
      (detect_sql_injection q).1 = true →
      ∃ s2, firewall_execute_query realE hpE gen el s app ip op q hr
        = .ok (s2, (false, (honeypot_execute_query hpE gen q s.honeypot_db).2,
            (detect_sql_injection q).2)))
    ∧ (∀ (σ ρ : Type) (realE : SQLEngine σ ρ) (hpE : SQLEngine (List UserRow) ρ)
        (gen : ℕ → String × String × String × ℚ) (el : ℚ) (s : FirewallState σ ρ)
        (app ip op q : String) (hr : ℕ),
      (is_authorized AUTHORIZED_APPS app ip op hr).1 = false →
      (detect_sql_injection q).1 = false →
      ∃ s2, firewall_execute_query realE hpE gen el s app ip op q hr
        = .ok (s2, (false, (honeypot_execute_query hpE gen q s.honeypot_db).2,
            (is_authorized AUTHORIZED_APPS app ip op hr).2))) := by
  refine ⟨?_, ?_, ?_⟩
  · intro σ ρ realE hpE gen el s app ip op q hr db2 rows hauth hinj hreal
    by_cases hw : (["INSERT", "UPDATE", "DELETE"].contains (pyUpper op)) = true
    · refine ⟨{ s with
        real_db := db2
        logger := (log_query s.logger app ip op q true "Access granted" el).1 }, ?_⟩
      simp only [firewall_execute_query]
      rw [hauth, hinj, hreal, hw]
      rfl
    · rw [Bool.not_eq_true] at hw
      refine ⟨{ s with
        logger := (log_query s.logger app ip op q true "Access granted" el).1 }, ?_⟩
      simp only [firewall_execute_query]
      rw [hauth, hinj, hreal, hw]
      rfl
  · intro σ ρ realE hpE gen el s app ip op q hr hinj
    cases hA : (is_authorized AUTHORIZED_APPS app ip op hr).1 <;>
    · refine ⟨{ s with
        honeypot_db := (honeypot_execute_query hpE gen q s.honeypot_db).1
        logger := (log_query
          (log_intrusion s.logger app ip op q (detect_sql_injection q).2).1
          app ip op q false (detect_sql_injection q).2 el).1 }, ?_⟩
      simp only [firewall_execute_query]
      rw [hinj, hA]
      rfl
  · intro σ ρ realE hpE gen el s app ip op q hr hauth hinj
    refine ⟨{ s with
      honeypot_db := (honeypot_execute_query hpE gen q s.honeypot_db).1
      logger := (log_query
        (log_intrusion s.logger app ip op q
          (is_authorized AUTHORIZED_APPS app ip op hr).2).1
        app ip op q false (is_authorized AUTHORIZED_APPS app ip op hr).2 el).1 }, ?_⟩
    simp only [firewall_execute_query]
    rw [hauth, hinj]
    rfl

/-- Witness for C1: one authorized clean call (real store, fetched rows), one
injection call (honeypot results and the injection reason), one unauthorized
call (honeypot results and the access-control reason). -/
theorem C1_execute_query_routing_witness :
    (∃ s2, firewall_execute_query (σ := Unit) (fun _ st => .ok (st, [5]))
        (fun _ st => .ok (st, [9])) (fun _ => ("u", "e", "p", (0 : ℚ))) 1
        ⟨(), [], ⟨[], []⟩⟩ "webapp_frontend" "192.168.1.50" "SELECT" "SELECT 1" 10
      = .ok (s2, (true,
          if ["INSERT", "UPDATE", "DELETE"].contains (pyUpper "SELECT") then [] else [5],
          "Access granted")))
    ∧ (∃ s2, firewall_execute_query (σ := Unit) (fun _ st => .ok (st, [5]))
        (fun _ st => .ok (st, [9])) (fun _ => ("u", "e", "p", (0 : ℚ))) 1
        ⟨(), [], ⟨[], []⟩⟩ "webapp_frontend" "192.168.1.50" "SELECT" "a; b" 10
      = .ok (s2, (false,
          (honeypot_execute_query (fun _ st => .ok (st, [9]))
            (fun _ => ("u", "e", "p", (0 : ℚ))) "a; b" []).2,
          (detect_sql_injection "a; b").2)))
    ∧ (∃ s2, firewall_execute_query (σ := Unit) (fun _ st => .ok (st, [5]))
        (fun _ st => .ok (st, [9])) (fun _ => ("u", "e", "p", (0 : ℚ))) 1
        ⟨(), [], ⟨[], []⟩⟩ "webapp_frontend" "192.168.1.50" "SELECT" "SELECT 1" 2
      = .ok (s2, (false,
          (honeypot_execute_query (fun _ st => .ok (st, [9]))
            (fun _ => ("u", "e", "p", (0 : ℚ))) "SELECT 1" []).2,
          (is_authorized AUTHORIZED_APPS "webapp_frontend" "192.168.1.50" "SELECT" 2).2))) :=
  ⟨C1_execute_query_routing.1 Unit ℕ _ _ _ 1 ⟨(), [], ⟨[], []⟩⟩
      "webapp_frontend" "192.168.1.50" "SELECT" "SELECT 1" 10 () [5]
      (by decide) (by decide) rfl,
   C1_execute_query_routing.2.1 Unit ℕ _ _ _ 1 ⟨(), [], ⟨[], []⟩⟩
      "webapp_frontend" "192.168.1.50" "SELECT" "a; b" 10 (by decide),
   C1_execute_query_routing.2.2 Unit ℕ _ _ _ 1 ⟨(), [], ⟨[], []⟩⟩
      "webapp_frontend" "192.168.1.50" "SELECT" "SELECT 1" 2 (by decide) (by decide)⟩

/-- C5: every normally returning call appends exactly one query-history entry
(status ALLOWED on the authorized path, BLOCKED otherwise), only denied calls
append an intrusion entry, and `get_query_stats` reports
`block_rate = blocked/total*100` with 0 for an empty history. -/
theorem C5_logging_and_stats :
    (∀ (σ ρ : Type) (realE : SQLEngine σ ρ) (hpE : SQLEngine (List UserRow) ρ)
        (gen : ℕ → String × String × String × ℚ) (el : ℚ) (s : FirewallState σ ρ)
        (app ip op q : String) (hr : ℕ) (db2 : σ) (rows : List ρ),
      (is_authorized AUTHORIZED_APPS app ip op hr).1 = true →
      (detect_sql_injection q).1 = false →
      realE q s.real_db = .ok (db2, rows) →
      ∃ s2 res e, firewall_execute_query realE hpE gen el s app ip op q hr
          = .ok (s2, res)
        ∧ s2.logger.query_history = s.logger.query_history ++ [e]
        ∧ e.status = "ALLOWED" ∧ e.is_authorized = true
        ∧ s2.logger.logs = s.logger.logs ∧ res.1 = true)
    ∧ (∀ (σ ρ : Type) (realE : SQLEngine σ ρ) (hpE : SQLEngine (List UserRow) ρ)
        (gen : ℕ → String × String × String × ℚ) (el : ℚ) (s : FirewallState σ ρ)
        (app ip op q : String) (hr : ℕ),
      ((is_authorized AUTHORIZED_APPS app ip op hr).1 = false
        ∨ (detect_sql_injection q).1 = true) →
      ∃ s2 res e ie, firewall_execute_query realE hpE gen el s app ip op q hr
          = .ok (s2, res)
        ∧ s2.logger.query_history = s.logger.query_history ++ [e]
        ∧ e.status = "BLOCKED" ∧ e.is_authorized = false
        ∧ s2.logger.logs = s.logger.logs ++ [ie] ∧ res.1 = false)
    ∧ (∀ ls : SecurityLoggerState,
        (get_query_stats ls).total_queries = ls.query_history.length
        ∧ (get_query_stats ls).allowed
            = ls.query_history.countP (fun q => q.is_authorized)
        ∧ (get_query_stats ls).blocked
            = ls.query_history.length
              - ls.query_history.countP (fun q => q.is_authorized)
        ∧ (get_query_stats ls).block_rate
            = if ls.query_history.length = 0 then 0
              else ((get_query_stats ls).blocked : ℚ)
                / (ls.query_history.length : ℚ) * 100) := by
  refine ⟨?_, ?_, ?_⟩
  · intro σ ρ realE hpE gen el s app ip op q hr db2 rows hauth hinj hreal
    by_cases hw : (["INSERT", "UPDATE", "DELETE"].contains (pyUpper op)) = true
    · refine ⟨{ s with
          real_db := db2
          logger := (log_query s.logger app ip op q true "Access granted" el).1 },
        (true, ([] : List ρ), "Access granted"),
        (log_query s.logger app ip op q true "Access granted" el).2,
        ?_, rfl, rfl, rfl, rfl, rfl⟩
      simp only [firewall_execute_query]
      rw [hauth, hinj, hreal, hw]
      rfl
    · rw [Bool.not_eq_true] at hw
      refine ⟨{ s with
          logger := (log_query s.logger app ip op q true "Access granted" el).1 },
        (true, rows, "Access granted"),
        (log_query s.logger app ip op q true "Access granted" el).2,
        ?_, rfl, rfl, rfl, rfl, rfl⟩
      simp only [firewall_execute_query]
      rw [hauth, hinj, hreal, hw]
      rfl
  · intro σ ρ realE hpE gen el s app ip op q hr hden
    have main : ∀ rsn : String,
        (if (detect_sql_injection q).1 then (detect_sql_injection q).2
          else (is_authorized AUTHORIZED_APPS app ip op hr).2) = rsn →
        ((is_authorized AUTHORIZED_APPS app ip op hr).1
            && !(detect_sql_injection q).1) = false →
        ∃ s2 res e ie, firewall_execute_query realE hpE gen el s app ip op q hr
            = .ok (s2, res)
          ∧ s2.logger.query_history = s.logger.query_history ++ [e]
          ∧ e.status = "BLOCKED" ∧ e.is_authorized = false
          ∧ s2.logger.logs = s.logger.logs ++ [ie] ∧ res.1 = false := by
      intro rsn hrsn hcond
      refine ⟨{ s with
          honeypot_db := (honeypot_execute_query hpE gen q s.honeypot_db).1
          logger := (log_query (log_intrusion s.logger app ip op q rsn).1
            app ip op q false rsn el).1 },
        (false, (honeypot_execute_query hpE gen q s.honeypot_db).2, rsn),
        (log_query (log_intrusion s.logger app ip op q rsn).1
          app ip op q false rsn el).2,
        (log_intrusion s.logger app ip op q rsn).2,
        ?_, rfl, rfl, rfl, rfl, rfl⟩
      simp only [firewall_execute_query]
      rw [hcond, hrsn]
      rfl
    rcases hden with hA | hI
    · by_cases hI : (detect_sql_injection q).1 = true
      · exact main _ (by rw [hI]) (by simp [hA])
      · rw [Bool.not_eq_true] at hI
        exact main _ (by rw [hI]) (by simp [hA])
    · cases hA : (is_authorized AUTHORIZED_APPS app ip op hr).1
      · exact main _ (by rw [hI]) (by simp [hA])
      · exact main _ (by rw [hI]) (by simp [hA, hI])
  · intro ls
    unfold get_query_stats
    by_cases h : ls.query_history.length = 0
    · simp [h]
    · have hpos : 0 < ls.query_history.length := Nat.pos_of_ne_zero h
      simp [h, hpos]

/-- Witness for C5: one allowed call and one blocked call at concrete inputs. -/
theorem C5_logging_and_stats_witness :
    (∃ s2 res e, firewall_execute_query (σ := Unit) (fun _ st => .ok (st, [5]))
        (fun _ st => .ok (st, [9])) (fun _ => ("u", "e", "p", (0 : ℚ))) 1
        ⟨(), [], ⟨[], []⟩⟩ "webapp_frontend" "192.168.1.50" "SELECT" "SELECT 1" 10
          = .ok (s2, res)
      ∧ s2.logger.query_history = ([] : List QueryEntry) ++ [e]
      ∧ e.status = "ALLOWED" ∧ e.is_authorized = true
      ∧ s2.logger.logs = ([] : List IntrusionEntry) ∧ res.1 = true)
    ∧ (∃ s2 res e ie, firewall_execute_query (σ := Unit) (fun _ st => .ok (st, [5]))
        (fun _ st => .ok (st, [9])) (fun _ => ("u", "e", "p", (0 : ℚ))) 1
        ⟨(), [], ⟨[], []⟩⟩ "webapp_frontend" "192.168.1.50" "SELECT" "SELECT 1" 2
          = .ok (s2, res)
      ∧ s2.logger.query_history = ([] : List QueryEntry) ++ [e]
      ∧ e.status = "BLOCKED" ∧ e.is_authorized = false
      ∧ s2.logger.logs = ([] : List IntrusionEntry) ++ [ie] ∧ res.1 = false) :=
  ⟨C5_logging_and_stats.1 Unit ℕ _ _ _ 1 ⟨(), [], ⟨[], []⟩⟩
      "webapp_frontend" "192.168.1.50" "SELECT" "SELECT 1" 10 () [5]
      (by decide) (by decide) rfl,
   C5_logging_and_stats.2.1 Unit ℕ _ _ _ 1 ⟨(), [], ⟨[], []⟩⟩
      "webapp_frontend" "192.168.1.50" "SELECT" "SELECT 1" 2
      (Or.inl (by decide))⟩

/-! ## ThreatAnalyzer (`src/security/threat_analyzer.py`)

`datetime` timestamps are modelled as integer seconds; `timedelta(hours=1)`
is 3600 s.  The two `datetime.now()` reads inside one call (record, then
prune) are the same instant `now`.  The `ip_attempts` dict is an association
list in insertion order. -/

structure ThreatAnalyzerState where
  ip_attempts : List (String × List (ℤ × String))
deriving DecidableEq

/-- `self.ip_attempts[ip] = v` on a dict that may or may not contain `ip`. -/
def updateAssoc : List (String × List (ℤ × String)) → String → List (ℤ × String) →
    List (String × List (ℤ × String))
  | [], k, v => [(k, v)]
  | kv :: rest, k, v =>
    if kv.1 == k then (kv.1, v) :: rest else kv :: updateAssoc rest k v

/-- `ThreatAnalyzer.analyze_threat_level`: record the attempt, prune entries
not strictly newer than one hour ago, classify the remaining count. -/
def analyze_threat_level (s : ThreatAnalyzerState) (ip_address reason : String)
    (now : ℤ) : String × ThreatAnalyzerState :=
  let prior := (s.ip_attempts.lookup ip_address).getD []
  let appended := prior ++ [(now, reason)]
  let pruned := appended.filter (fun a => decide (now - 3600 < a.1))
  let recent_attempts := pruned.length
  (if 10 ≤ recent_attempts then "CRITICAL"
   else if 5 ≤ recent_attempts then "HIGH"
   else if 3 ≤ recent_attempts then "MEDIUM"
   else "LOW",
   ⟨updateAssoc s.ip_attempts ip_address pruned⟩)

theorem lookup_updateAssoc (l : List (String × List (ℤ × String))) (k : String)
    (v : List (ℤ × String)) : List.lookup k (updateAssoc l k v) = some v := by
  induction l with
  | nil => simp [updateAssoc, List.lookup]
  | cons hd tl ih =>
    unfold updateAssoc
    by_cases h : hd.1 = k
    · simp [h, List.lookup]
    · have hb : (hd.1 == k) = false := by simp [h]
      have hkb : (k == hd.1) = false := by simp [Ne.symm h]
      simp [hb, hkb, List.lookup, ih]

/-- C9 counterexample: an IP with 10 recorded attempts of which all but 2 are
older than one hour (8 at t = 0, 2 at t = 3500, now = 3660) is classified
MEDIUM — the two surviving old attempts plus the newly appended one give
count 3 — not LOW as claimed. -/
theorem C9_all_but_two_old_is_medium_not_low :
    (analyze_threat_level
        ⟨[("203.0.113.9", List.replicate 8 ((0 : ℤ), "blocked")
            ++ List.replicate 2 ((3500 : ℤ), "blocked"))]⟩
        "203.0.113.9" "blocked" 3660).1 = "MEDIUM"
    ∧ (analyze_threat_level
        ⟨[("203.0.113.9", List.replicate 8 ((0 : ℤ), "blocked")
            ++ List.replicate 2 ((3500 : ℤ), "blocked"))]⟩
        "203.0.113.9" "blocked" 3660).1 ≠ "LOW" := by
  constructor
  · decide
  · decide

/-- C9 (amended): `analyze_threat_level` appends one timestamped attempt,
prunes the ip's attempts older than one hour, stores the pruned list, and
classifies the remaining count (≥10 CRITICAL, ≥5 HIGH, ≥3 MEDIUM, else LOW);
an IP with 10 attempts inside the last hour is CRITICAL, and an IP whose
attempts have all but 2 aged beyond one hour is MEDIUM (2 survivors plus the
newly recorded attempt), not LOW. -/
theorem C9_threat_level_classification :
    (∀ (s : ThreatAnalyzerState) (ip r : String) (now : ℤ),
      (analyze_threat_level s ip r now).2.ip_attempts.lookup ip
        = some ((((s.ip_attempts.lookup ip).getD []) ++ [(now, r)]).filter
            (fun a => decide (now - 3600 < a.1))))
    ∧ (∀ (s : ThreatAnalyzerState) (ip r : String) (now : ℤ),
      (analyze_threat_level s ip r now).1
        = (if 10 ≤ ((((s.ip_attempts.lookup ip).getD []) ++ [(now, r)]).filter
              (fun a => decide (now - 3600 < a.1))).length then "CRITICAL"
           else if 5 ≤ ((((s.ip_attempts.lookup ip).getD []) ++ [(now, r)]).filter
              (fun a => decide (now - 3600 < a.1))).length then "HIGH"
           else if 3 ≤ ((((s.ip_attempts.lookup ip).getD []) ++ [(now, r)]).filter
              (fun a => decide (now - 3600 < a.1))).length then "MEDIUM"
           else "LOW"))
    ∧ (analyze_threat_level
        ⟨[("198.51.100.7", List.replicate 10 ((3500 : ℤ), "blocked"))]⟩
        "198.51.100.7" "blocked" 3660).1 = "CRITICAL"
    ∧ (analyze_threat_level
        ⟨[("198.51.100.7", List.replicate 8 ((0 : ℤ), "blocked")
            ++ List.replicate 2 ((3500 : ℤ), "blocked"))]⟩
        "198.51.100.7" "blocked" 3660).1 = "MEDIUM" := by
  refine ⟨?_, fun s ip r now => rfl, by decide, by decide⟩
  intro s ip r now
  exact lookup_updateAssoc s.ip_attempts ip _

end DBFirewall
